/-
  Verification of the VLA inference model layer
  (src/vla-inference/models/: base.py, pi0.py, openvla.py, groot.py, __init__.py).

  Shallow embedding conventions:
  - Python floats are modelled as rationals (ℚ); all the arithmetic the
    claims depend on (sums, products by decimal constants, min/max clamping)
    is exact in ℚ.
  - `math.sin` is modelled as an abstract function `sinFn : ℚ → ℚ`; the only
    fact used about it is `∀ x, |sinFn x| ≤ 1`, supplied as a hypothesis.
  - Every `random.uniform(a, b)` call site is modelled as an input drawn from
    an environment record, one field per call site, indexed by step/joint
    where the call occurs inside loops; hypotheses bound each value by the
    interval of the corresponding `uniform` call.
  - Wall-clock effects (`time.sleep`, `time.perf_counter`) only influence the
    reported `inference_time_ms`; that value is taken from the environment.
  - Raising an exception is modelled by `Except VLAError`; methods that cannot
    raise are total functions on the state.
-/
import Mathlib

namespace VLA

/-! ## Data model (base.py) -/

/-- `ModelInfo` dataclass from base.py: static model metadata. -/
structure ModelInfo where
  modelName : String
  modelVersion : String
  actionDim : ℕ
  chunkSize : ℕ
  supportedEmbodiments : List String
  imageWidth : ℕ
  imageHeight : ℕ
  baseModel : String
deriving DecidableEq, Repr

/-- `Observation` dataclass from base.py: robot observation input. -/
structure Observation where
  cameraImage : List ℕ
  jointPositions : List ℚ
  jointVelocities : List ℚ
  languageInstruction : String
  timestamp : ℚ
  embodimentTag : String
  sessionId : Option String
deriving DecidableEq, Repr

/-- `Action` dataclass from base.py: single-timestep robot command. -/
structure Action where
  jointCommands : List ℚ
  gripperCommand : ℚ
  timestamp : ℚ
deriving DecidableEq, Repr

/-- `ActionChunk` dataclass from base.py: predicted action sequence. -/
structure ActionChunk where
  actions : List Action
  inferenceTimeMs : ℚ
  modelVersion : String
  confidence : ℚ
  sequenceNumber : ℕ
deriving DecidableEq, Repr

/-- Error taxonomy of the model layer: `RuntimeError` from
`VLAModel._check_loaded` (notLoaded), `GR00TNotAvailableError` from groot.py
(grootNotAvailable), and `ValueError` from the factory (unknownModelType). -/
inductive VLAError where
  | notLoaded (message : String)
  | grootNotAvailable (message : String)
  | unknownModelType (rejected : String) (available : List String)
deriving DecidableEq, Repr

/-- The exception class ("kind") of an error, abstracting away the message. -/
inductive ErrorKind where
  | notLoadedKind
  | grootNotAvailableKind
  | unknownModelTypeKind
deriving DecidableEq, Repr

/-- Kind projection: which exception class a `VLAError` belongs to. -/
def VLAError.kind : VLAError → ErrorKind
  | .notLoaded _ => .notLoadedKind
  | .grootNotAvailable _ => .grootNotAvailableKind
  | .unknownModelType _ _ => .unknownModelTypeKind

/-- Message of `VLAModel._check_loaded`:
`f"{cls} model not loaded. Call load() before predict()."`. -/
def notLoadedMessage (className : String) : String :=
  className ++ " model not loaded. Call load() before predict()."

/-- Python `min` on two rationals (kernel-computable; agrees with `min`). -/
def ratMin (a b : ℚ) : ℚ := if a ≤ b then a else b

/-- Python `max` on two rationals (kernel-computable; agrees with `max`). -/
def ratMax (a b : ℚ) : ℚ := if a ≤ b then b else a

/-- Python `max(lo, min(hi, x))`, the clamping idiom used throughout. -/
def clamp (lo hi x : ℚ) : ℚ := ratMax lo (ratMin hi x)

/-- ASCII lower-casing of one character, as Python `str.lower` does on the
ASCII identifiers and instructions this code handles. -/
def charLower (c : Char) : Char :=
  if 65 ≤ c.toNat ∧ c.toNat ≤ 90 then Char.ofNat (c.toNat + 32) else c

/-- Python `s.lower()` (ASCII), applied character-wise. -/
def strLower (s : String) : String := String.mk (s.data.map charLower)

/-- Python substring membership `needle in haystack` on character lists:
`matchAt` tests whether `needle` begins at the head of `l`. -/
def matchAt : List Char → List Char → Bool
  | [], _ => true
  | _ :: _, [] => false
  | a :: as, b :: bs => a = b && matchAt as bs

/-- Python substring membership scanned over every suffix. -/
def containsChars (needle : List Char) : List Char → Bool
  | [] => matchAt needle []
  | b :: bs => matchAt needle (b :: bs) || containsChars needle bs

/-- Python `needle in haystack` for strings. -/
def strContains (haystack needle : String) : Bool :=
  containsChars needle.data haystack.data

/-! ## Shared trajectory seeding (pi0.py lines 191-200, openvla.py 186-194)

`current = [max(-1, min(1, pos)) for pos in observation.joint_positions[:6]]`
then zero-extended to length 6. -/

/-- Seed position from an observation: first six joints clamped to [-1, 1],
zero-padded to six entries. -/
def initCurrent (positions : List ℚ) : List ℚ :=
  let c := (positions.take 6).map (fun pos => clamp (-1) 1 pos)
  c ++ List.replicate (6 - c.length) 0

/-! ## π0 backend (pi0.py) -/

/-- `Pi0Model.SUPPORTED_EMBODIMENTS`. -/
def pi0SupportedEmbodiments : List String :=
  ["unitree_h1", "so101_arm", "franka_panda", "aloha"]

/-- Mutable fields of a `Pi0Model` instance. -/
structure Pi0State where
  loaded : Bool
  device : String
  checkpointPath : Option String
  sequenceCounter : ℕ
  lastAction : Option (List ℚ)
deriving DecidableEq, Repr

/-- `Pi0Model.__init__`. -/
def Pi0State.init : Pi0State :=
  { loaded := false, device := "cpu", checkpointPath := none
    sequenceCounter := 0, lastAction := none }

/-- Environment for one `Pi0Model.predict` call: the `math.sin` function,
the `random.uniform(-0.05, 0.05)` confidence perturbation, and the measured
inference time. -/
structure Pi0Env where
  sinFn : ℚ → ℚ
  confNoise : ℚ
  inferenceTimeMs : ℚ

/-- `Pi0Model.load`: no-op when already loaded; otherwise records device and
checkpoint path, sets loaded, and resets sequence counter and last action. -/
def pi0Load (st : Pi0State) (checkpointPath : Option String) (device : String) : Pi0State :=
  if st.loaded then st
  else
    { loaded := true, device := device, checkpointPath := checkpointPath
      sequenceCounter := 0, lastAction := none }

/-- `Pi0Model.unload`: no-op when not loaded; otherwise clears loaded flag,
sequence counter and last action (device and checkpoint path are untouched). -/
def pi0Unload (st : Pi0State) : Pi0State :=
  if st.loaded then
    { st with loaded := false, sequenceCounter := 0, lastAction := none }
  else st

/-- `phase = (self._sequence_counter * self.CHUNK_SIZE + i) * 0.1` with
`CHUNK_SIZE = 16` (pi0.py line 205). -/
def pi0Phase (seqCounter i : ℕ) : ℚ := ((seqCounter * 16 + i : ℕ) : ℚ) * 0.1

/-- Per-joint update (pi0.py lines 210-213):
`new_pos = max(-1, min(1, curr_pos + 0.02 * sin(phase + j * 0.5)))`. -/
def pi0JointUpdate (s : ℚ → ℚ) (phase : ℚ) (j : ℕ) (curr : ℚ) : ℚ :=
  clamp (-1) 1 (curr + 0.02 * s (phase + (j : ℚ) * 0.5))

/-- The `for j, curr_pos in enumerate(current)` loop body applied across the
running position vector. -/
def updateJoints (s : ℚ → ℚ) (phase : ℚ) : ℕ → List ℚ → List ℚ
  | _, [] => []
  | j, c :: cs => pi0JointUpdate s phase j c :: updateJoints s phase (j + 1) cs

/-- Gripper value (pi0.py lines 218-219):
`max(0, min(1, 0.5 + 0.3 * sin(phase * 0.3)))`. -/
def pi0Gripper (s : ℚ → ℚ) (phase : ℚ) : ℚ :=
  clamp 0 1 (0.5 + 0.3 * s (phase * 0.3))

/-- The `for i in range(self.CHUNK_SIZE)` loop of
`Pi0Model._generate_smooth_actions`: first argument is the loop index `i`,
second the remaining iteration count, third the running position vector.
Returns the generated actions and the final position vector. -/
def pi0Steps (s : ℚ → ℚ) (seqCounter : ℕ) (baseTime : ℚ) :
    ℕ → ℕ → List ℚ → List Action × List ℚ
  | _, 0, current => ([], current)
  | i, n + 1, current =>
    let phase := pi0Phase seqCounter i
    let newCur := updateJoints s phase 0 current
    let act : Action :=
      { jointCommands := newCur, gripperCommand := pi0Gripper s phase
        timestamp := baseTime + ((i : ℚ) + 1) * 0.02 }
    let rest := pi0Steps s seqCounter baseTime (i + 1) n newCur
    (act :: rest.1, rest.2)

/-- `Pi0Model._generate_smooth_actions`: seeds from the stored last action if
present (else from the observation), runs the 16-step loop, and returns the
actions together with the final position vector stored as the new last
action. -/
def generateSmoothActions (s : ℚ → ℚ) (seqCounter : ℕ) (obs : Observation)
    (lastAction : Option (List ℚ)) : List Action × List ℚ :=
  let current :=
    match lastAction with
    | some l => l
    | none => initCurrent obs.jointPositions
  pi0Steps s seqCounter obs.timestamp 0 16 current

/-- `Pi0Model._calculate_confidence`: base 0.9 for supported embodiments else
0.6, plus uniform noise in [-0.05, 0.05], clamped to [0.5, 1.0]. -/
def pi0Confidence (obs : Observation) (noise : ℚ) : ℚ :=
  let base : ℚ := if obs.embodimentTag ∈ pi0SupportedEmbodiments then 0.9 else 0.6
  clamp 0.5 1 (base + noise)

/-- `Pi0Model.predict`: checks loaded, generates the chunk with the
pre-increment sequence counter, then increments the counter and stores the
final position vector. -/
def pi0Predict (env : Pi0Env) (st : Pi0State) (obs : Observation) :
    Except VLAError (ActionChunk × Pi0State) :=
  if st.loaded then
    let r := generateSmoothActions env.sinFn st.sequenceCounter obs st.lastAction
    let newSeq := st.sequenceCounter + 1
    .ok
      ({ actions := r.1, inferenceTimeMs := env.inferenceTimeMs
         modelVersion := "0.6.0-stub"
         confidence := pi0Confidence obs env.confNoise
         sequenceNumber := newSeq },
       { st with sequenceCounter := newSeq, lastAction := some r.2 })
  else .error (.notLoaded (notLoadedMessage "Pi0Model"))

/-- The sequential loop of `Pi0Model.predict_batch`; `k` is the position in
the batch, used to index the per-call environment. -/
def pi0BatchAux (envs : ℕ → Pi0Env) :
    ℕ → Pi0State → List Observation → Except VLAError (List ActionChunk × Pi0State)
  | _, st, [] => .ok ([], st)
  | k, st, o :: rest =>
    match pi0Predict (envs k) st o with
    | .error e => .error e
    | .ok (c, st1) =>
      match pi0BatchAux envs (k + 1) st1 rest with
      | .error e => .error e
      | .ok (cs, st2) => .ok (c :: cs, st2)

/-- `Pi0Model.predict_batch`: checks loaded then runs `predict` per input in
input order. -/
def pi0PredictBatch (envs : ℕ → Pi0Env) (st : Pi0State) (obs : List Observation) :
    Except VLAError (List ActionChunk × Pi0State) :=
  if st.loaded then pi0BatchAux envs 0 st obs
  else .error (.notLoaded (notLoadedMessage "Pi0Model"))

/-- `Pi0Model.model_info`. -/
def pi0ModelInfo : ModelInfo :=
  { modelName := "pi0-stub", modelVersion := "0.6.0-stub", actionDim := 7
    chunkSize := 16, supportedEmbodiments := pi0SupportedEmbodiments
    imageWidth := 224, imageHeight := 224, baseModel := "pi0" }

/-- `Pi0Model.chunk_size`. -/
def pi0ChunkSize : ℕ := 16

/-! ## OpenVLA backend (openvla.py) -/

/-- `OpenVLAModel.SUPPORTED_EMBODIMENTS`. -/
def openvlaSupportedEmbodiments : List String :=
  ["franka_panda", "kuka_iiwa", "ur5", "widowx", "google_robot"]

/-- Mutable fields of an `OpenVLAModel` instance. -/
structure OpenVLAState where
  loaded : Bool
  device : String
  checkpointPath : Option String
  sequenceCounter : ℕ
  actionHistory : List (List ℚ)
deriving DecidableEq, Repr

/-- `OpenVLAModel.__init__`. -/
def OpenVLAState.init : OpenVLAState :=
  { loaded := false, device := "cpu", checkpointPath := none
    sequenceCounter := 0, actionHistory := [] }

/-- Environment for one `OpenVLAModel.predict` call, one field per
`random.uniform` call site of `_generate_openvla_actions` /
`_generate_target` / `_calculate_confidence`, indexed by the loop
step `i` and joint `j` where applicable. -/
structure OpenVLAEnv where
  stepNoise : ℕ → ℕ → ℚ
  posNoise : ℕ → ℕ → ℚ
  gripNoise : ℕ → ℚ
  targetNoise : ℕ → ℚ
  confNoise : ℚ
  inferenceTimeMs : ℚ

/-- `OpenVLAModel.load`: no-op when already loaded; otherwise records device
and checkpoint path, sets loaded, and resets sequence counter and history. -/
def openvlaLoad (st : OpenVLAState) (checkpointPath : Option String) (device : String) :
    OpenVLAState :=
  if st.loaded then st
  else
    { loaded := true, device := device, checkpointPath := checkpointPath
      sequenceCounter := 0, actionHistory := [] }

/-- `OpenVLAModel.unload`: no-op when not loaded; otherwise clears loaded
flag, sequence counter and history. -/
def openvlaUnload (st : OpenVLAState) : OpenVLAState :=
  if st.loaded then
    { st with loaded := false, sequenceCounter := 0, actionHistory := [] }
  else st

/-- Base target vector from `OpenVLAModel._generate_target` keyword matching
on the lower-cased instruction. -/
def baseTargetOf (instruction : String) : List ℚ :=
  let instr := strLower instruction
  if strContains instr "pick" || strContains instr "grab" then
    [0.3, 0.2, -0.4, 0.0, 0.5, 0.0]
  else if strContains instr "place" || strContains instr "put" then
    [0.2, 0.3, 0.1, 0.0, 0.2, 0.0]
  else if strContains instr "move" then
    [0.1, 0.1, 0.0, 0.0, 0.0, 0.0]
  else [0, 0, 0, 0, 0, 0]

/-- `[b + random.uniform(-0.1, 0.1) for b in base]` with the per-entry noise
indexed by position. -/
def addTargetNoise (tN : ℕ → ℚ) : ℕ → List ℚ → List ℚ
  | _, [] => []
  | j, b :: bs => (b + tN j) :: addTargetNoise tN (j + 1) bs

/-- `OpenVLAModel._generate_target`. -/
def generateTarget (tN : ℕ → ℚ) (instruction : String) : List ℚ :=
  addTargetNoise tN 0 (baseTargetOf instruction)

/-- The move-towards-target expression of openvla.py lines 205-209, before
noise and clamping: step size `0.05 + uniform(-0.02, 0.02)`, then
`min(tgt, curr + step)` when the target is above, else `max(tgt, curr - step)`. -/
def stepTowardRaw (stepNoise curr tgt : ℚ) : ℚ :=
  let stepSize := 0.05 + stepNoise
  if curr < tgt then ratMin tgt (curr + stepSize) else ratMax tgt (curr - stepSize)

/-- Full per-joint update of openvla.py lines 205-213: move towards target,
add uniform(-0.01, 0.01) noise, clamp to [-1, 1]. -/
def stepToward (stepNoise posNoise curr tgt : ℚ) : ℚ :=
  clamp (-1) 1 (stepTowardRaw stepNoise curr tgt + posNoise)

/-- `for j, (curr, tgt) in enumerate(zip(current, target))`: truncates at the
shorter list, exactly like Python `zip`. -/
def zipStepJoints (sN pN : ℕ → ℚ) : ℕ → List ℚ → List ℚ → List ℚ
  | _, [], _ => []
  | _, _ :: _, [] => []
  | j, c :: cs, t :: ts => stepToward (sN j) (pN j) c t :: zipStepJoints sN pN (j + 1) cs ts

/-- `1.0 if "pick" in observation.language_instruction.lower() else 0.0`
(openvla.py line 219). -/
def gripperTargetOf (instruction : String) : ℚ :=
  if strContains (strLower instruction) "pick" then 1 else 0

/-- `0.5 if not self._action_history else self._action_history[-1][6] if
len(self._action_history[-1]) > 6 else 0.5` (openvla.py line 220). The
history does not change during the step loop, so this is constant per call. -/
def gripperCurrentOf (history : List (List ℚ)) : ℚ :=
  match history.getLast? with
  | none => 0.5
  | some l => if 6 < l.length then l.getD 6 0 else 0.5

/-- Gripper value at one step (openvla.py lines 221-222): one 0.15 blend from
`gc` towards `gt`, plus uniform(-0.05, 0.05) noise, clamped to [0, 1]. -/
def gripVal (gt gc noise : ℚ) : ℚ :=
  clamp 0 1 (gc + 0.15 * (gt - gc) + noise)

/-- The `for i in range(self.CHUNK_SIZE)` loop of
`OpenVLAModel._generate_openvla_actions`: the `zip` with the 6-entry target
updates the first entries of `current` and leaves any longer tail untouched.
Returns the generated actions and the final `current` vector. -/
def openvlaSteps (env : OpenVLAEnv) (target : List ℚ) (gt gc baseTime : ℚ) :
    ℕ → ℕ → List ℚ → List Action × List ℚ
  | _, 0, current => ([], current)
  | i, n + 1, current =>
    let jc := zipStepJoints (env.stepNoise i) (env.posNoise i) 0 current target
    let newCur := jc ++ current.drop jc.length
    let act : Action :=
      { jointCommands := jc, gripperCommand := gripVal gt gc (env.gripNoise i)
        timestamp := baseTime + ((i : ℚ) + 1) * 0.02 }
    let rest := openvlaSteps env target gt gc baseTime (i + 1) n newCur
    (act :: rest.1, rest.2)

/-- History append of openvla.py lines 231-233:
`append(current + [gripper]); if len > 10: pop(0)`. -/
def pushHistory (history : List (List ℚ)) (entry : List ℚ) : List (List ℚ) :=
  let h2 := history ++ [entry]
  if 10 < h2.length then h2.drop 1 else h2

/-- `OpenVLAModel._generate_openvla_actions`: seeds `current` from the last
history entry if any (else from the observation), derives target and gripper
target/base once per call, runs the 8-step loop, and appends
`current + [gripper]` (the loop's final gripper value, step index 7) to the
bounded history. -/
def generateOpenvlaActions (env : OpenVLAEnv) (obs : Observation)
    (history : List (List ℚ)) : List Action × List (List ℚ) :=
  let current :=
    match history.getLast? with
    | some l => l
    | none => initCurrent obs.jointPositions
  let target := generateTarget env.targetNoise obs.languageInstruction
  let gt := gripperTargetOf obs.languageInstruction
  let gc := gripperCurrentOf history
  let r := openvlaSteps env target gt gc obs.timestamp 0 8 current
  let finalGrip := gripVal gt gc (env.gripNoise 7)
  (r.1, pushHistory history (r.2 ++ [finalGrip]))

/-- `OpenVLAModel._calculate_confidence`: base 0.85 for supported embodiments
else 0.55, plus uniform noise in [-0.05, 0.05], clamped to [0.4, 1.0]. -/
def openvlaConfidence (obs : Observation) (noise : ℚ) : ℚ :=
  let base : ℚ := if obs.embodimentTag ∈ openvlaSupportedEmbodiments then 0.85 else 0.55
  clamp 0.4 1 (base + noise)

/-- `OpenVLAModel.predict`: checks loaded, generates the chunk, then
increments the sequence counter and stores the new history. -/
def openvlaPredict (env : OpenVLAEnv) (st : OpenVLAState) (obs : Observation) :
    Except VLAError (ActionChunk × OpenVLAState) :=
  if st.loaded then
    let r := generateOpenvlaActions env obs st.actionHistory
    let newSeq := st.sequenceCounter + 1
    .ok
      ({ actions := r.1, inferenceTimeMs := env.inferenceTimeMs
         modelVersion := "7b-stub"
         confidence := openvlaConfidence obs env.confNoise
         sequenceNumber := newSeq },
       { st with sequenceCounter := newSeq, actionHistory := r.2 })
  else .error (.notLoaded (notLoadedMessage "OpenVLAModel"))

/-- The sequential loop of `OpenVLAModel.predict_batch`. -/
def openvlaBatchAux (envs : ℕ → OpenVLAEnv) :
    ℕ → OpenVLAState → List Observation → Except VLAError (List ActionChunk × OpenVLAState)
  | _, st, [] => .ok ([], st)
  | k, st, o :: rest =>
    match openvlaPredict (envs k) st o with
    | .error e => .error e
    | .ok (c, st1) =>
      match openvlaBatchAux envs (k + 1) st1 rest with
      | .error e => .error e
      | .ok (cs, st2) => .ok (c :: cs, st2)

/-- `OpenVLAModel.predict_batch`: checks loaded then runs `predict` per input
in input order. -/
def openvlaPredictBatch (envs : ℕ → OpenVLAEnv) (st : OpenVLAState)
    (obs : List Observation) : Except VLAError (List ActionChunk × OpenVLAState) :=
  if st.loaded then openvlaBatchAux envs 0 st obs
  else .error (.notLoaded (notLoadedMessage "OpenVLAModel"))

/-- `OpenVLAModel.model_info`. -/
def openvlaModelInfo : ModelInfo :=
  { modelName := "openvla-stub", modelVersion := "7b-stub", actionDim := 7
    chunkSize := 8, supportedEmbodiments := openvlaSupportedEmbodiments
    imageWidth := 336, imageHeight := 336, baseModel := "openvla" }

/-- `OpenVLAModel.chunk_size`. -/
def openvlaChunkSize : ℕ := 8

/-! ## GR00T backend (groot.py) -/

/-- Mutable fields of a `GR00TModel` instance. -/
structure GrootState where
  loaded : Bool
  device : String
deriving DecidableEq, Repr

/-- `GR00TModel.__init__`. -/
def GrootState.init : GrootState := { loaded := false, device := "cpu" }

/-- The `GR00TNotAvailableError` message raised by `GR00TModel.load`
(groot.py lines 89-99). -/
def grootLoadMessage : String :=
  "GR00T model integration is not yet available.\n\n" ++
  "GR00T is NVIDIA\x27s foundation model for humanoid robots, " ++
  "currently in limited preview.\n\n" ++
  "For humanoid robot inference, please use:\n" ++
  "  - model_type=\x27pi0\x27 for π0.6 (recommended)\n" ++
  "  - model_type=\x27openvla\x27 for OpenVLA 7B\n\n" ++
  "To track GR00T availability:\n" ++
  "  https://developer.nvidia.com/project-groot\n" ++
  "  https://developer.nvidia.com/isaac-sim"

/-- The `GR00TNotAvailableError` message raised by `GR00TModel.predict` and
`GR00TModel.predict_batch`. -/
def grootPredictMessage : String := "GR00T model not loaded"

/-- `GR00TModel.load`: always raises `GR00TNotAvailableError`. -/
def grootLoad (_st : GrootState) (_checkpointPath : Option String) (_device : String) :
    Except VLAError GrootState :=
  .error (.grootNotAvailable grootLoadMessage)

/-- `GR00TModel.predict`: always raises `GR00TNotAvailableError`, whatever
the state. -/
def grootPredict (_st : GrootState) (_obs : Observation) : Except VLAError ActionChunk :=
  .error (.grootNotAvailable grootPredictMessage)

/-- `GR00TModel.predict_batch`: always raises `GR00TNotAvailableError`,
whatever the state. -/
def grootPredictBatch (_st : GrootState) (_obs : List Observation) :
    Except VLAError (List ActionChunk) :=
  .error (.grootNotAvailable grootPredictMessage)

/-- `GR00TModel.unload`: a no-op (`pass`), never fails. -/
def grootUnload (st : GrootState) : GrootState := st

/-- `GR00TModel.model_info`. -/
def grootModelInfo : ModelInfo :=
  { modelName := "groot-stub", modelVersion := "0.0.0-stub", actionDim := 32
    chunkSize := 20
    supportedEmbodiments := ["nvidia_jetbot", "figure_01", "unitree_h1", "unitree_g1"]
    imageWidth := 448, imageHeight := 448, baseModel := "groot" }

/-- `GR00TModel.chunk_size`. -/
def grootChunkSize : ℕ := 20

/-! ## Factory (`models/__init__.py`) -/

/-- A freshly constructed backend instance: the constructor only builds the
initial state, it never loads. -/
inductive ModelInstance where
  | pi0Inst (st : Pi0State)
  | openvlaInst (st : OpenVLAState)
  | grootInst (st : GrootState)
deriving DecidableEq, Repr

/-- The keys of `model_map` in `create_model`, in source order. -/
def modelMapKeys : List String := ["pi0", "pi0_6", "openvla", "groot"]

/-- `model_map[key]()`: constructor dispatch on the lower-cased identifier. -/
def modelMapLookup (key : String) : Option ModelInstance :=
  if key = "pi0" then some (.pi0Inst Pi0State.init)
  else if key = "pi0_6" then some (.pi0Inst Pi0State.init)
  else if key = "openvla" then some (.openvlaInst OpenVLAState.init)
  else if key = "groot" then some (.grootInst GrootState.init)
  else none

/-- Python string comparison (lexicographic on code points) on the character
lists, as used by `sorted`. -/
def charsLe : List Char → List Char → Bool
  | [], _ => true
  | _ :: _, [] => false
  | a :: as, b :: bs =>
    if a.toNat < b.toNat then true
    else if b.toNat < a.toNat then false
    else charsLe as bs

/-- Python `a <= b` on strings. -/
def strLe (a b : String) : Bool := charsLe a.data b.data

/-- Insertion into a sorted list of strings. -/
def insertSorted (x : String) : List String → List String
  | [] => [x]
  | y :: ys => if strLe x y then x :: y :: ys else y :: insertSorted x ys

/-- Python `sorted` on a list of strings (insertion sort). -/
def sortStrings : List String → List String
  | [] => []
  | x :: xs => insertSorted x (sortStrings xs)

/-- `sorted(set(model_map.keys()))` from `create_model`. -/
def sortedModelTypes : List String := sortStrings modelMapKeys.dedup

/-- `create_model`: lower-cases the identifier, dispatches through
`model_map`, and raises `ValueError` naming the rejected identifier and the
sorted de-duplicated valid set on a miss. -/
def create_model (modelType : String) : Except VLAError ModelInstance :=
  let lower := strLower modelType
  match modelMapLookup lower with
  | some m => .ok m
  | none => .error (.unknownModelType modelType sortedModelTypes)

/-! ## Helper lemmas: clamping -/

lemma ratMin_eq (a b : ℚ) : ratMin a b = min a b := by
  rw [ratMin, min_def]

lemma ratMax_eq (a b : ℚ) : ratMax a b = max a b := by
  rw [ratMax, max_def]

lemma clamp_eq (lo hi x : ℚ) : clamp lo hi x = max lo (min hi x) := by
  rw [clamp, ratMax_eq, ratMin_eq]

lemma lo_le_clamp (lo hi x : ℚ) : lo ≤ clamp lo hi x := by
  rw [clamp_eq]; exact le_max_left _ _

lemma clamp_le_hi (lo hi x : ℚ) (h : lo ≤ hi) : clamp lo hi x ≤ hi := by
  rw [clamp_eq]; exact max_le h (min_le_left _ _)

/-- Clamping a perturbed in-range value moves it by at most the
perturbation. -/
lemma abs_clamp_sub_le (lo hi x d : ℚ) (h1 : lo ≤ x) (h2 : x ≤ hi) :
    |clamp lo hi (x + d) - x| ≤ |d| := by
  have hd1 := le_abs_self d
  have hd2 := neg_abs_le d
  rw [clamp_eq]
  rcases le_total (x + d) hi with hle | hle
  · rw [min_eq_right hle]
    rcases le_total lo (x + d) with hlo | hlo
    · rw [max_eq_right hlo]
      have h3 : x + d - x = d := by ring
      rw [h3]
    · rw [max_eq_left hlo, abs_le]
      constructor <;> linarith
  · rw [min_eq_left hle, max_eq_right (h1.trans h2), abs_le]
    constructor <;> linarith

/-! ## Helper lemmas: the π0 generator -/

lemma updateJoints_bounds (s : ℚ → ℚ) (phase : ℚ) :
    ∀ (cur : List ℚ) (j : ℕ), ∀ q ∈ updateJoints s phase j cur, -1 ≤ q ∧ q ≤ 1 := by
  intro cur
  induction cur with
  | nil => intro j q hq; simp [updateJoints] at hq
  | cons c cs ih =>
    intro j q hq
    simp only [updateJoints, List.mem_cons] at hq
    rcases hq with rfl | hq
    · exact ⟨lo_le_clamp _ _ _, clamp_le_hi _ _ _ (by norm_num)⟩
    · exact ih (j + 1) q hq

lemma updateJoints_close (s : ℚ → ℚ) (hs : ∀ x, |s x| ≤ 1) (phase : ℚ) :
    ∀ (cur : List ℚ) (j : ℕ), (∀ q ∈ cur, -1 ≤ q ∧ q ≤ 1) →
    List.Forall₂ (fun x y => |y - x| < 0.2) cur (updateJoints s phase j cur) := by
  intro cur
  induction cur with
  | nil => intro j _; simp [updateJoints]
  | cons c cs ih =>
    intro j hcur
    rw [updateJoints]
    refine List.Forall₂.cons ?_ (ih (j + 1) (fun q hq => hcur q (List.mem_cons_of_mem _ hq)))
    have hc := hcur c (List.mem_cons_self _ _)
    have habs : |0.02 * s (phase + (j : ℚ) * 0.5)| ≤ 0.02 := by
      rw [abs_mul, abs_of_nonneg (by norm_num : (0:ℚ) ≤ 0.02)]
      have h1 := hs (phase + (j : ℚ) * 0.5)
      nlinarith
    have hstep := abs_clamp_sub_le (-1) 1 c (0.02 * s (phase + (j : ℚ) * 0.5)) hc.1 hc.2
    rw [pi0JointUpdate]
    calc |clamp (-1) 1 (c + 0.02 * s (phase + (j : ℚ) * 0.5)) - c|
        ≤ |0.02 * s (phase + (j : ℚ) * 0.5)| := hstep
      _ ≤ 0.02 := habs
      _ < 0.2 := by norm_num

/-- Unfolding of one π0 generation step. -/
lemma pi0Steps_succ (s : ℚ → ℚ) (q : ℕ) (b : ℚ) (i n : ℕ) (cur : List ℚ) :
    pi0Steps s q b i (n + 1) cur =
      (({ jointCommands := updateJoints s (pi0Phase q i) 0 cur
          gripperCommand := pi0Gripper s (pi0Phase q i)
          timestamp := b + ((i : ℚ) + 1) * 0.02 } : Action) ::
        (pi0Steps s q b (i + 1) n (updateJoints s (pi0Phase q i) 0 cur)).1,
       (pi0Steps s q b (i + 1) n (updateJoints s (pi0Phase q i) 0 cur)).2) := rfl

lemma pi0Steps_length (s : ℚ → ℚ) (q : ℕ) (b : ℚ) :
    ∀ (n i : ℕ) (cur : List ℚ), ((pi0Steps s q b i n cur).1).length = n := by
  intro n
  induction n with
  | zero => intro i cur; rfl
  | succ n ih => intro i cur; rw [pi0Steps_succ]; simp [ih]

lemma pi0Steps_bounds (s : ℚ → ℚ) (q : ℕ) (b : ℚ) :
    ∀ (n i : ℕ) (cur : List ℚ), ∀ a ∈ (pi0Steps s q b i n cur).1,
      (∀ x ∈ a.jointCommands, -1 ≤ x ∧ x ≤ 1) ∧
      0 ≤ a.gripperCommand ∧ a.gripperCommand ≤ 1 := by
  intro n
  induction n with
  | zero => intro i cur a ha; simp [pi0Steps] at ha
  | succ n ih =>
    intro i cur a ha
    rw [pi0Steps_succ] at ha
    simp only [List.mem_cons] at ha
    rcases ha with rfl | ha
    · refine ⟨updateJoints_bounds s _ cur 0, ?_, ?_⟩
      · rw [pi0Gripper]; exact lo_le_clamp _ _ _
      · rw [pi0Gripper]; exact clamp_le_hi _ _ _ (by norm_num)
    · exact ih (i + 1) _ a ha

/-- Adjacent actions of a generated π0 chunk have all joint deltas below 0.2
in magnitude. -/
lemma pi0Steps_chain (s : ℚ → ℚ) (hs : ∀ x, |s x| ≤ 1) (q : ℕ) (b : ℚ) :
    ∀ (n i : ℕ) (cur : List ℚ),
      List.Chain' (fun a1 a2 =>
        List.Forall₂ (fun x y => |y - x| < 0.2) a1.jointCommands a2.jointCommands)
        (pi0Steps s q b i n cur).1 := by
  intro n
  induction n with
  | zero => intro i cur; simp [pi0Steps]
  | succ n ih =>
    intro i cur
    rw [pi0Steps_succ, List.chain'_cons']
    refine ⟨?_, ih (i + 1) _⟩
    intro a2 ha2
    cases n with
    | zero => simp [pi0Steps] at ha2
    | succ m =>
      rw [pi0Steps_succ] at ha2
      simp only [List.head?_cons, Option.mem_def, Option.some.injEq] at ha2
      subst ha2
      exact updateJoints_close s hs _ _ 0 (updateJoints_bounds s _ cur 0)

lemma pi0Steps_timestamps (s : ℚ → ℚ) (q : ℕ) (b : ℚ) :
    ∀ (n i : ℕ) (cur : List ℚ),
      ((pi0Steps s q b i n cur).1).map Action.timestamp =
        (List.range' i n).map (fun k => b + ((k : ℚ) + 1) * 0.02) := by
  intro n
  induction n with
  | zero => intro i cur; rfl
  | succ n ih =>
    intro i cur
    rw [pi0Steps_succ, List.range'_succ]
    simp [ih]

/-- The seed vector used by `generateSmoothActions`. -/
def pi0Seed (obs : Observation) (last : Option (List ℚ)) : List ℚ :=
  match last with
  | some l => l
  | none => initCurrent obs.jointPositions

lemma generateSmoothActions_eq (s : ℚ → ℚ) (q : ℕ) (obs : Observation)
    (last : Option (List ℚ)) :
    generateSmoothActions s q obs last = pi0Steps s q obs.timestamp 0 16 (pi0Seed obs last) := by
  cases last <;> rfl

lemma generateSmoothActions_length (s : ℚ → ℚ) (q : ℕ) (obs : Observation)
    (last : Option (List ℚ)) : (generateSmoothActions s q obs last).1.length = 16 := by
  rw [generateSmoothActions_eq]
  exact pi0Steps_length s q obs.timestamp 16 0 _

lemma generateSmoothActions_bounds (s : ℚ → ℚ) (q : ℕ) (obs : Observation)
    (last : Option (List ℚ)) :
    ∀ a ∈ (generateSmoothActions s q obs last).1,
      (∀ x ∈ a.jointCommands, -1 ≤ x ∧ x ≤ 1) ∧
      0 ≤ a.gripperCommand ∧ a.gripperCommand ≤ 1 := by
  rw [generateSmoothActions_eq]
  exact pi0Steps_bounds s q obs.timestamp 16 0 _

/-- Characterization of `pi0Predict` on a loaded state. -/
lemma pi0Predict_loaded (env : Pi0Env) (st : Pi0State) (obs : Observation)
    (h : st.loaded = true) :
    pi0Predict env st obs = .ok
      ({ actions := (generateSmoothActions env.sinFn st.sequenceCounter obs st.lastAction).1
         inferenceTimeMs := env.inferenceTimeMs
         modelVersion := "0.6.0-stub"
         confidence := pi0Confidence obs env.confNoise
         sequenceNumber := st.sequenceCounter + 1 },
       { st with
          sequenceCounter := st.sequenceCounter + 1
          lastAction := some (generateSmoothActions env.sinFn st.sequenceCounter obs st.lastAction).2 }) := by
  simp [pi0Predict, h]

/-- Full characterization of the sequential batch loop on a loaded state. -/
lemma pi0BatchAux_ok (envs : ℕ → Pi0Env) :
    ∀ (obs : List Observation) (k : ℕ) (st : Pi0State), st.loaded = true →
      ∃ cs st2, pi0BatchAux envs k st obs = .ok (cs, st2) ∧
        cs.length = obs.length ∧
        st2.loaded = true ∧
        st2.sequenceCounter = st.sequenceCounter + obs.length ∧
        cs.map ActionChunk.sequenceNumber = List.range' (st.sequenceCounter + 1) obs.length ∧
        List.Forall₂ (fun o c => ∃ e st0 st1, st0.loaded = true ∧
          pi0Predict e st0 o = .ok (c, st1)) obs cs ∧
        ∀ c ∈ cs, c.actions.length = 16 ∧
          ∀ a ∈ c.actions, (∀ x ∈ a.jointCommands, -1 ≤ x ∧ x ≤ 1) ∧
            0 ≤ a.gripperCommand ∧ a.gripperCommand ≤ 1 := by
  intro obs
  induction obs with
  | nil =>
    intro k st h
    exact ⟨[], st, rfl, rfl, h, by simp, by simp, List.Forall₂.nil, by simp⟩
  | cons o rest ih =>
    intro k st h
    have hp := pi0Predict_loaded (envs k) st o h
    obtain ⟨cs, st2, hrun, hlen, hl2, hseq2, hmap, hfa, hbounds⟩ :=
      ih (k + 1)
        { st with
            sequenceCounter := st.sequenceCounter + 1
            lastAction := some (generateSmoothActions (envs k).sinFn st.sequenceCounter o st.lastAction).2 }
        (by simpa using h)
    refine ⟨({ actions := (generateSmoothActions (envs k).sinFn st.sequenceCounter o st.lastAction).1
               inferenceTimeMs := (envs k).inferenceTimeMs
               modelVersion := "0.6.0-stub"
               confidence := pi0Confidence o (envs k).confNoise
               sequenceNumber := st.sequenceCounter + 1 } : ActionChunk) :: cs,
            st2, ?_, ?_, hl2, ?_, ?_, ?_, ?_⟩
    · rw [pi0BatchAux, hp]
      simp [hrun]
    · simp [hlen]
    · simp only [List.length_cons]
      simp only at hseq2
      omega
    · rw [List.map_cons, List.length_cons, List.range'_succ]
      simp only at hmap
      simp [hmap]
    · exact List.Forall₂.cons ⟨envs k, st, _, h, hp⟩ hfa
    · intro c hc
      rcases List.mem_cons.mp hc with rfl | hc
      · exact ⟨generateSmoothActions_length _ _ _ _, generateSmoothActions_bounds _ _ _ _⟩
      · exact hbounds c hc

/-! ## Helper lemmas: the OpenVLA generator -/

lemma zipStepJoints_length_le (sN pN : ℕ → ℚ) :
    ∀ (c t : List ℚ) (j : ℕ), (zipStepJoints sN pN j c t).length ≤ c.length := by
  intro c
  induction c with
  | nil => intro t j; cases t <;> simp [zipStepJoints]
  | cons x xs ih =>
    intro t j
    cases t with
    | nil => simp [zipStepJoints]
    | cons y ys =>
      simp only [zipStepJoints, List.length_cons]
      exact Nat.succ_le_succ (ih ys (j + 1))

lemma zipStepJoints_bounds (sN pN : ℕ → ℚ) :
    ∀ (c t : List ℚ) (j : ℕ), ∀ x ∈ zipStepJoints sN pN j c t, -1 ≤ x ∧ x ≤ 1 := by
  intro c
  induction c with
  | nil => intro t j x hx; cases t <;> simp [zipStepJoints] at hx
  | cons y ys ih =>
    intro t j x hx
    cases t with
    | nil => simp [zipStepJoints] at hx
    | cons z zs =>
      simp only [zipStepJoints, List.mem_cons] at hx
      rcases hx with rfl | hx
      · exact ⟨lo_le_clamp _ _ _, clamp_le_hi _ _ _ (by norm_num)⟩
      · exact ih zs (j + 1) x hx

/-- Unfolding of one OpenVLA generation step. -/
lemma openvlaSteps_succ (env : OpenVLAEnv) (target : List ℚ) (gt gc b : ℚ)
    (i n : ℕ) (cur : List ℚ) :
    openvlaSteps env target gt gc b i (n + 1) cur =
      (({ jointCommands := zipStepJoints (env.stepNoise i) (env.posNoise i) 0 cur target
          gripperCommand := gripVal gt gc (env.gripNoise i)
          timestamp := b + ((i : ℚ) + 1) * 0.02 } : Action) ::
        (openvlaSteps env target gt gc b (i + 1) n
          (zipStepJoints (env.stepNoise i) (env.posNoise i) 0 cur target ++
            cur.drop (zipStepJoints (env.stepNoise i) (env.posNoise i) 0 cur target).length)).1,
       (openvlaSteps env target gt gc b (i + 1) n
          (zipStepJoints (env.stepNoise i) (env.posNoise i) 0 cur target ++
            cur.drop (zipStepJoints (env.stepNoise i) (env.posNoise i) 0 cur target).length)).2) := rfl

lemma openvlaSteps_length (env : OpenVLAEnv) (target : List ℚ) (gt gc b : ℚ) :
    ∀ (n i : ℕ) (cur : List ℚ), ((openvlaSteps env target gt gc b i n cur).1).length = n := by
  intro n
  induction n with
  | zero => intro i cur; rfl
  | succ n ih => intro i cur; rw [openvlaSteps_succ]; simp [ih]

lemma openvlaSteps_bounds (env : OpenVLAEnv) (target : List ℚ) (gt gc b : ℚ) :
    ∀ (n i : ℕ) (cur : List ℚ), ∀ a ∈ (openvlaSteps env target gt gc b i n cur).1,
      (∀ x ∈ a.jointCommands, -1 ≤ x ∧ x ≤ 1) ∧
      0 ≤ a.gripperCommand ∧ a.gripperCommand ≤ 1 := by
  intro n
  induction n with
  | zero => intro i cur a ha; simp [openvlaSteps] at ha
  | succ n ih =>
    intro i cur a ha
    rw [openvlaSteps_succ] at ha
    simp only [List.mem_cons] at ha
    rcases ha with rfl | ha
    · refine ⟨zipStepJoints_bounds _ _ cur target 0, ?_, ?_⟩
      · rw [gripVal]; exact lo_le_clamp _ _ _
      · rw [gripVal]; exact clamp_le_hi _ _ _ (by norm_num)
    · exact ih (i + 1) _ a ha

/-- The grippers of a generated OpenVLA chunk: one fixed blend from `gc`
towards `gt` per step, plus the step's noise, clamped. -/
lemma openvlaSteps_grippers (env : OpenVLAEnv) (target : List ℚ) (gt gc b : ℚ) :
    ∀ (n i : ℕ) (cur : List ℚ),
      ((openvlaSteps env target gt gc b i n cur).1).map Action.gripperCommand =
        (List.range' i n).map (fun k => gripVal gt gc (env.gripNoise k)) := by
  intro n
  induction n with
  | zero => intro i cur; rfl
  | succ n ih =>
    intro i cur
    rw [openvlaSteps_succ, List.range'_succ]
    simp [ih]

lemma openvlaSteps_final_length (env : OpenVLAEnv) (target : List ℚ) (gt gc b : ℚ) :
    ∀ (n i : ℕ) (cur : List ℚ), ((openvlaSteps env target gt gc b i n cur).2).length = cur.length := by
  intro n
  induction n with
  | zero => intro i cur; rfl
  | succ n ih =>
    intro i cur
    rw [openvlaSteps_succ]
    have hle := zipStepJoints_length_le (env.stepNoise i) (env.posNoise i) cur target 0
    rw [ih]
    simp only [List.length_append, List.length_drop]
    omega

/-- The seed vector used by `generateOpenvlaActions`. -/
def ovSeed (obs : Observation) (history : List (List ℚ)) : List ℚ :=
  match history.getLast? with
  | some l => l
  | none => initCurrent obs.jointPositions

lemma generateOpenvlaActions_eq (env : OpenVLAEnv) (obs : Observation)
    (history : List (List ℚ)) :
    generateOpenvlaActions env obs history =
      ((openvlaSteps env (generateTarget env.targetNoise obs.languageInstruction)
          (gripperTargetOf obs.languageInstruction) (gripperCurrentOf history)
          obs.timestamp 0 8 (ovSeed obs history)).1,
       pushHistory history
         ((openvlaSteps env (generateTarget env.targetNoise obs.languageInstruction)
             (gripperTargetOf obs.languageInstruction) (gripperCurrentOf history)
             obs.timestamp 0 8 (ovSeed obs history)).2 ++
          [gripVal (gripperTargetOf obs.languageInstruction) (gripperCurrentOf history)
            (env.gripNoise 7)])) := by
  cases hl : history.getLast? <;>
    simp only [generateOpenvlaActions, ovSeed, hl]

lemma generateOpenvlaActions_length (env : OpenVLAEnv) (obs : Observation)
    (history : List (List ℚ)) : (generateOpenvlaActions env obs history).1.length = 8 := by
  rw [generateOpenvlaActions_eq]
  exact openvlaSteps_length env _ _ _ _ 8 0 _

lemma generateOpenvlaActions_bounds (env : OpenVLAEnv) (obs : Observation)
    (history : List (List ℚ)) :
    ∀ a ∈ (generateOpenvlaActions env obs history).1,
      (∀ x ∈ a.jointCommands, -1 ≤ x ∧ x ≤ 1) ∧
      0 ≤ a.gripperCommand ∧ a.gripperCommand ≤ 1 := by
  rw [generateOpenvlaActions_eq]
  exact openvlaSteps_bounds env _ _ _ _ 8 0 _

/-- Characterization of `openvlaPredict` on a loaded state. -/
lemma openvlaPredict_loaded (env : OpenVLAEnv) (st : OpenVLAState) (obs : Observation)
    (h : st.loaded = true) :
    openvlaPredict env st obs = .ok
      ({ actions := (generateOpenvlaActions env obs st.actionHistory).1
         inferenceTimeMs := env.inferenceTimeMs
         modelVersion := "7b-stub"
         confidence := openvlaConfidence obs env.confNoise
         sequenceNumber := st.sequenceCounter + 1 },
       { st with
          sequenceCounter := st.sequenceCounter + 1
          actionHistory := (generateOpenvlaActions env obs st.actionHistory).2 }) := by
  simp [openvlaPredict, h]

/-- Full characterization of the sequential OpenVLA batch loop on a loaded
state. -/
lemma openvlaBatchAux_ok (envs : ℕ → OpenVLAEnv) :
    ∀ (obs : List Observation) (k : ℕ) (st : OpenVLAState), st.loaded = true →
      ∃ cs st2, openvlaBatchAux envs k st obs = .ok (cs, st2) ∧
        cs.length = obs.length ∧
        st2.loaded = true ∧
        st2.sequenceCounter = st.sequenceCounter + obs.length ∧
        cs.map ActionChunk.sequenceNumber = List.range' (st.sequenceCounter + 1) obs.length ∧
        List.Forall₂ (fun o c => ∃ e st0 st1, st0.loaded = true ∧
          openvlaPredict e st0 o = .ok (c, st1)) obs cs ∧
        ∀ c ∈ cs, c.actions.length = 8 ∧
          ∀ a ∈ c.actions, (∀ x ∈ a.jointCommands, -1 ≤ x ∧ x ≤ 1) ∧
            0 ≤ a.gripperCommand ∧ a.gripperCommand ≤ 1 := by
  intro obs
  induction obs with
  | nil =>
    intro k st h
    exact ⟨[], st, rfl, rfl, h, by simp, by simp, List.Forall₂.nil, by simp⟩
  | cons o rest ih =>
    intro k st h
    have hp := openvlaPredict_loaded (envs k) st o h
    obtain ⟨cs, st2, hrun, hlen, hl2, hseq2, hmap, hfa, hbounds⟩ :=
      ih (k + 1)
        { st with
            sequenceCounter := st.sequenceCounter + 1
            actionHistory := (generateOpenvlaActions (envs k) o st.actionHistory).2 }
        (by simpa using h)
    refine ⟨({ actions := (generateOpenvlaActions (envs k) o st.actionHistory).1
               inferenceTimeMs := (envs k).inferenceTimeMs
               modelVersion := "7b-stub"
               confidence := openvlaConfidence o (envs k).confNoise
               sequenceNumber := st.sequenceCounter + 1 } : ActionChunk) :: cs,
            st2, ?_, ?_, hl2, ?_, ?_, ?_, ?_⟩
    · rw [openvlaBatchAux, hp]
      simp [hrun]
    · simp [hlen]
    · simp only [List.length_cons]
      simp only at hseq2
      omega
    · rw [List.map_cons, List.length_cons, List.range'_succ]
      simp only at hmap
      simp [hmap]
    · exact List.Forall₂.cons ⟨envs k, st, _, h, hp⟩ hfa
    · intro c hc
      rcases List.mem_cons.mp hc with rfl | hc
      · exact ⟨generateOpenvlaActions_length _ _ _, generateOpenvlaActions_bounds _ _ _⟩
      · exact hbounds c hc

/-! ## Helper lemmas: the OpenVLA action history -/

lemma initCurrent_length (positions : List ℚ) : (initCurrent positions).length = 6 := by
  simp only [initCurrent, List.length_append, List.length_replicate, List.length_map,
    List.length_take]
  omega

/-- The invariant the OpenVLA action history actually maintains: every entry
has at least 7 entries (6 joints then one or more gripper values) and there
are at most 10 entries. -/
def histInv (h : List (List ℚ)) : Prop :=
  (∀ e ∈ h, 7 ≤ e.length) ∧ h.length ≤ 10

lemma getLast?_mem_of_eq {α : Type} {l : List α} {x : α} (h : l.getLast? = some x) :
    x ∈ l := by
  have hx : x ∈ l.getLast? := by rw [h]; rfl
  obtain ⟨hne, heq⟩ := List.mem_getLast?_eq_getLast hx
  rw [heq]
  exact List.getLast_mem hne

lemma pushHistory_length_le (h : List (List ℚ)) (entry : List ℚ)
    (hh : h.length ≤ 10) : (pushHistory h entry).length ≤ 10 := by
  simp only [pushHistory]
  split_ifs with hif <;>
    simp only [List.length_drop, List.length_append, List.length_singleton] at hif ⊢ <;>
      omega

lemma pushHistory_mem (h : List (List ℚ)) (entry x : List ℚ)
    (hx : x ∈ pushHistory h entry) : x ∈ h ∨ x = entry := by
  simp only [pushHistory] at hx
  split_ifs at hx with hif
  · have := List.drop_subset 1 (h ++ [entry]) hx
    simpa using this
  · simpa using hx

lemma pushHistory_ne_nil (h : List (List ℚ)) (entry : List ℚ) :
    pushHistory h entry ≠ [] := by
  simp only [pushHistory]
  split_ifs with hif <;>
    refine List.length_pos.mp ?_ <;>
      simp only [List.length_drop, List.length_append, List.length_singleton] at hif ⊢ <;>
        omega

lemma ovSeed_length (obs : Observation) (history : List (List ℚ))
    (hinv : ∀ e ∈ history, 7 ≤ e.length) : 6 ≤ (ovSeed obs history).length := by
  rw [ovSeed]
  cases hl : history.getLast? with
  | none =>
    show 6 ≤ (initCurrent obs.jointPositions).length
    rw [initCurrent_length]
  | some l =>
    have hm := getLast?_mem_of_eq hl
    have h7 := hinv l hm
    show 6 ≤ l.length
    omega

/-- `generateOpenvlaActions` preserves the history invariant; the new history
is nonempty; and the newest entry of `generateOpenvlaActions`'s history has
strictly more than 6 entries. -/
lemma generateOpenvlaActions_hist (env : OpenVLAEnv) (obs : Observation)
    (history : List (List ℚ)) (hinv : histInv history) :
    histInv (generateOpenvlaActions env obs history).2 ∧
      (generateOpenvlaActions env obs history).2 ≠ [] := by
  rw [generateOpenvlaActions_eq]
  obtain ⟨hlen7, hlen10⟩ := hinv
  have hseed := ovSeed_length obs history hlen7
  have hfin := openvlaSteps_final_length env
    (generateTarget env.targetNoise obs.languageInstruction)
    (gripperTargetOf obs.languageInstruction) (gripperCurrentOf history)
    obs.timestamp 8 0 (ovSeed obs history)
  have hentry : 7 ≤ ((openvlaSteps env (generateTarget env.targetNoise obs.languageInstruction)
      (gripperTargetOf obs.languageInstruction) (gripperCurrentOf history)
      obs.timestamp 0 8 (ovSeed obs history)).2 ++
      [gripVal (gripperTargetOf obs.languageInstruction) (gripperCurrentOf history)
        (env.gripNoise 7)]).length := by
    simp only [List.length_append, List.length_singleton, hfin]
    omega
  refine ⟨⟨?_, pushHistory_length_le _ _ hlen10⟩, pushHistory_ne_nil _ _⟩
  intro e he
  rcases pushHistory_mem _ _ _ he with he | rfl
  · exact hlen7 e he
  · exact hentry

/-- When the history is nonempty and satisfies the invariant, the fragile
`[-1][6]` lookup finds a stored value: the 0.5 default is not used. -/
lemma gripperCurrentOf_of_inv (history : List (List ℚ)) (hinv : histInv history)
    (hne : history ≠ []) :
    ∃ l, history.getLast? = some l ∧ 6 < l.length ∧
      gripperCurrentOf history = l.getD 6 0 := by
  cases hl : history.getLast? with
  | none =>
    rw [List.getLast?_eq_none_iff] at hl
    exact absurd hl hne
  | some l =>
    have h7 := hinv.1 l (getLast?_mem_of_eq hl)
    refine ⟨l, rfl, by omega, ?_⟩
    rw [gripperCurrentOf, hl]
    simp only [if_pos (by omega : 6 < l.length)]

/-! ## Auxiliary lemmas on load/unload state -/

lemma pi0Unload_not_loaded (st : Pi0State) : (pi0Unload st).loaded = false := by
  rw [pi0Unload]
  split_ifs with h
  · rfl
  · simpa using h

lemma openvlaUnload_not_loaded (st : OpenVLAState) : (openvlaUnload st).loaded = false := by
  rw [openvlaUnload]
  split_ifs with h
  · rfl
  · simpa using h

lemma pi0Load_of_not_loaded (st : Pi0State) (cp : Option String) (dev : String)
    (h : st.loaded = false) :
    pi0Load st cp dev =
      { loaded := true, device := dev, checkpointPath := cp
        sequenceCounter := 0, lastAction := none } := by
  simp [pi0Load, h]

lemma openvlaLoad_of_not_loaded (st : OpenVLAState) (cp : Option String) (dev : String)
    (h : st.loaded = false) :
    openvlaLoad st cp dev =
      { loaded := true, device := dev, checkpointPath := cp
        sequenceCounter := 0, actionHistory := [] } := by
  simp [openvlaLoad, h]

/-! ## Shared concrete inputs for witnesses and counterexamples -/

/-- A concrete observation (mirrors the test fixture shape). -/
def obsDemo : Observation :=
  { cameraImage := [], jointPositions := [0, 0, 0, 0, 0, 0]
    jointVelocities := [0, 0, 0, 0, 0, 0]
    languageInstruction := "pick up the block", timestamp := 0
    embodimentTag := "franka_panda", sessionId := none }

/-- A π0 environment with the sine abstraction and all noise fixed at 0. -/
def zeroPi0Env : Pi0Env := { sinFn := fun _ => 0, confNoise := 0, inferenceTimeMs := 1 }

/-- An OpenVLA environment with every noise source fixed at 0. -/
def zeroOpenVLAEnv : OpenVLAEnv :=
  { stepNoise := fun _ _ => 0, posNoise := fun _ _ => 0, gripNoise := fun _ => 0
    targetNoise := fun _ => 0, confNoise := 0, inferenceTimeMs := 1 }

/-- A freshly loaded π0 state. -/
def pi0LoadedDemo : Pi0State := pi0Load Pi0State.init none "cpu"

/-- A freshly loaded OpenVLA state. -/
def ovLoadedDemo : OpenVLAState := openvlaLoad OpenVLAState.init none "cpu"

/-! ## Claim C1 -/

/-- C1 counterexample: the claim says every backend (groot included) fails
with a `NotLoaded` error when `predict` is called before any successful
load. On the groot backend, `predict` on the freshly constructed (unloaded)
instance raises `GR00TNotAvailableError` — a different error kind from the
`RuntimeError`-based `NotLoaded` of `_check_loaded`. -/
theorem c1_counterexample :
    grootPredict GrootState.init obsDemo =
      .error (VLAError.grootNotAvailable "GR00T model not loaded") ∧
    (VLAError.grootNotAvailable "GR00T model not loaded").kind ≠
      ErrorKind.notLoadedKind := by
  exact ⟨rfl, by decide⟩

/-- C1 (amended): for the pi0 and openvla backends, `predict` and
`predict_batch` on an unloaded state fail with the `NotLoaded`
(`RuntimeError`) error; the groot backend's `predict`/`predict_batch`
always fail with the `GR00TNotAvailableError` kind instead (message
"GR00T model not loaded"). -/
theorem c1_predict_before_load :
    (∀ env st obs, st.loaded = false →
       pi0Predict env st obs = .error (.notLoaded (notLoadedMessage "Pi0Model"))) ∧
    (∀ envs st obs, st.loaded = false →
       pi0PredictBatch envs st obs = .error (.notLoaded (notLoadedMessage "Pi0Model"))) ∧
    (∀ env st obs, st.loaded = false →
       openvlaPredict env st obs = .error (.notLoaded (notLoadedMessage "OpenVLAModel"))) ∧
    (∀ envs st obs, st.loaded = false →
       openvlaPredictBatch envs st obs = .error (.notLoaded (notLoadedMessage "OpenVLAModel"))) ∧
    (∀ st obs, grootPredict st obs = .error (.grootNotAvailable grootPredictMessage)) ∧
    (∀ st obs, grootPredictBatch st obs = .error (.grootNotAvailable grootPredictMessage)) := by
  refine ⟨?_, ?_, ?_, ?_, fun _ _ => rfl, fun _ _ => rfl⟩ <;>
    intro a st obs h <;>
      simp [pi0Predict, pi0PredictBatch, openvlaPredict, openvlaPredictBatch, h]

/-- C1 witness: the amended statement applied at the freshly constructed
(unloaded) pi0 instance and a concrete observation. -/
theorem c1_witness :
    Pi0State.init.loaded = false ∧
    pi0Predict zeroPi0Env Pi0State.init obsDemo =
      .error (.notLoaded (notLoadedMessage "Pi0Model")) :=
  ⟨rfl, c1_predict_before_load.1 zeroPi0Env Pi0State.init obsDemo rfl⟩

/-! ## Claim C4 -/

/-- C4: the factory returns the pi0 backend for identifiers lower-casing to
"pi0" or "pi0_6", the openvla backend for "openvla", the groot backend for
"groot" — each freshly constructed, not loaded — and fails on every other
identifier with an `UnknownModelType` error naming the rejected identifier
and carrying exactly the sorted de-duplicated valid set
["groot", "openvla", "pi0", "pi0_6"]. -/
theorem c4_factory :
    (∀ s, strLower s = "pi0" ∨ strLower s = "pi0_6" →
       create_model s = .ok (.pi0Inst Pi0State.init) ∧ Pi0State.init.loaded = false) ∧
    (∀ s, strLower s = "openvla" →
       create_model s = .ok (.openvlaInst OpenVLAState.init) ∧
         OpenVLAState.init.loaded = false) ∧
    (∀ s, strLower s = "groot" →
       create_model s = .ok (.grootInst GrootState.init) ∧ GrootState.init.loaded = false) ∧
    sortedModelTypes = ["groot", "openvla", "pi0", "pi0_6"] ∧
    (∀ s, strLower s ≠ "pi0" → strLower s ≠ "pi0_6" → strLower s ≠ "openvla" →
       strLower s ≠ "groot" →
       create_model s = .error (.unknownModelType s ["groot", "openvla", "pi0", "pi0_6"])) := by
  have hsorted : sortedModelTypes = ["groot", "openvla", "pi0", "pi0_6"] := by decide
  refine ⟨?_, ?_, ?_, hsorted, ?_⟩
  · rintro s (h | h) <;> exact ⟨by simp [create_model, modelMapLookup, h], rfl⟩
  · intro s h
    exact ⟨by simp [create_model, modelMapLookup, h], rfl⟩
  · intro s h
    exact ⟨by simp [create_model, modelMapLookup, h], rfl⟩
  · intro s h1 h2 h3 h4
    rw [← hsorted]
    simp [create_model, modelMapLookup, h1, h2, h3, h4]

/-- C4 witness: the factory applied at a mixed-case recognized identifier
and at an unrecognized one. -/
theorem c4_witness :
    (strLower "PI0_6" = "pi0" ∨ strLower "PI0_6" = "pi0_6") ∧
    create_model "PI0_6" = .ok (.pi0Inst Pi0State.init) ∧
    strLower "bert" ≠ "pi0" ∧ strLower "bert" ≠ "pi0_6" ∧
    strLower "bert" ≠ "openvla" ∧ strLower "bert" ≠ "groot" ∧
    create_model "bert" = .error (.unknownModelType "bert" ["groot", "openvla", "pi0", "pi0_6"]) :=
  ⟨Or.inr (by decide), (c4_factory.1 "PI0_6" (Or.inr (by decide))).1,
   by decide, by decide, by decide, by decide,
   c4_factory.2.2.2.2 "bert" (by decide) (by decide) (by decide) (by decide)⟩

/-! ## Claim C6 -/

/-- C6: for the pi0 and openvla backends, `load` on an already-loaded state
is a no-op (no error, state — including the running sequence counter and
continuity state — unchanged); `load` from the unloaded state performs the
genuine transition and is exactly the point where the sequence counter and
continuity state are reset. -/
theorem c6_load_idempotent :
    (∀ st cp dev, st.loaded = true → pi0Load st cp dev = st) ∧
    (∀ st cp dev, st.loaded = false →
       pi0Load st cp dev =
         { loaded := true, device := dev, checkpointPath := cp
           sequenceCounter := 0, lastAction := none }) ∧
    (∀ st cp dev, st.loaded = true → openvlaLoad st cp dev = st) ∧
    (∀ st cp dev, st.loaded = false →
       openvlaLoad st cp dev =
         { loaded := true, device := dev, checkpointPath := cp
           sequenceCounter := 0, actionHistory := [] }) := by
  refine ⟨?_, ?_, ?_, ?_⟩ <;> intro st cp dev h <;>
    simp [pi0Load, openvlaLoad, h]

/-- C6 witness: loading an already-loaded concrete pi0 state twice changes
nothing; loading the unloaded initial state resets counters. -/
theorem c6_witness :
    pi0LoadedDemo.loaded = true ∧
    pi0Load pi0LoadedDemo (some "ckpt") "cuda" = pi0LoadedDemo ∧
    Pi0State.init.loaded = false ∧
    pi0Load Pi0State.init none "cpu" =
      { loaded := true, device := "cpu", checkpointPath := none
        sequenceCounter := 0, lastAction := none } :=
  ⟨rfl, c6_load_idempotent.1 pi0LoadedDemo (some "ckpt") "cuda" rfl, rfl,
   c6_load_idempotent.2.1 Pi0State.init none "cpu" rfl⟩

/-! ## Claim C7 -/

/-- C7: the groot backend's `load` always fails with the "not yet available"
error whose message names the working alternative "pi0"; `predict` and
`predict_batch` always fail with the same error kind regardless of state;
`unload` never fails (it is the identity on the state); and the metadata
(32-dim action space, chunk size 20, 448×448 image) stays queryable. -/
theorem c7_groot_unavailable :
    (∀ st cp dev, grootLoad st cp dev = .error (.grootNotAvailable grootLoadMessage)) ∧
    strContains grootLoadMessage "not yet available" = true ∧
    strContains grootLoadMessage "pi0" = true ∧
    (∀ st obs, grootPredict st obs = .error (.grootNotAvailable grootPredictMessage)) ∧
    (∀ st obs, grootPredictBatch st obs = .error (.grootNotAvailable grootPredictMessage)) ∧
    (VLAError.grootNotAvailable grootPredictMessage).kind =
      (VLAError.grootNotAvailable grootLoadMessage).kind ∧
    (∀ st, grootUnload st = st) ∧
    grootModelInfo.actionDim = 32 ∧ grootModelInfo.chunkSize = 20 ∧
    grootModelInfo.imageWidth = 448 ∧ grootModelInfo.imageHeight = 448 ∧
    grootChunkSize = 20 :=
  ⟨fun _ _ _ => rfl, by decide, by decide, fun _ _ => rfl, fun _ _ => rfl, rfl,
   fun _ => rfl, rfl, rfl, rfl, rfl, rfl⟩

/-! ## Claim C2 -/

/-- C2: for the pi0 and openvla backends — after a `load` from the unloaded
state the first `predict` returns `sequence_number = 1`; N consecutive
`predict` calls (the sequential loop) return sequence numbers 1..N in
order; and `unload` followed by a fresh `load` resets the next `predict`
to sequence number 1. -/
theorem c2_sequencing :
    (∀ env cp dev st obs, st.loaded = false →
       ∃ c st2, pi0Predict env (pi0Load st cp dev) obs = .ok (c, st2) ∧
         c.sequenceNumber = 1) ∧
    (∀ envs cp dev st obsL, st.loaded = false →
       ∃ cs st2, pi0BatchAux envs 0 (pi0Load st cp dev) obsL = .ok (cs, st2) ∧
         cs.map ActionChunk.sequenceNumber = List.range' 1 obsL.length) ∧
    (∀ env cp dev st obs,
       ∃ c st2, pi0Predict env (pi0Load (pi0Unload st) cp dev) obs = .ok (c, st2) ∧
         c.sequenceNumber = 1) ∧
    (∀ env cp dev st obs, st.loaded = false →
       ∃ c st2, openvlaPredict env (openvlaLoad st cp dev) obs = .ok (c, st2) ∧
         c.sequenceNumber = 1) ∧
    (∀ envs cp dev st obsL, st.loaded = false →
       ∃ cs st2, openvlaBatchAux envs 0 (openvlaLoad st cp dev) obsL = .ok (cs, st2) ∧
         cs.map ActionChunk.sequenceNumber = List.range' 1 obsL.length) ∧
    (∀ env cp dev st obs,
       ∃ c st2, openvlaPredict env (openvlaLoad (openvlaUnload st) cp dev) obs = .ok (c, st2) ∧
         c.sequenceNumber = 1) := by
  refine ⟨?_, ?_, ?_, ?_, ?_, ?_⟩
  · intro env cp dev st obs h
    rw [pi0Load_of_not_loaded st cp dev h]
    exact ⟨_, _, pi0Predict_loaded env _ obs rfl, rfl⟩
  · intro envs cp dev st obsL h
    rw [pi0Load_of_not_loaded st cp dev h]
    obtain ⟨cs, st2, hrun, _, _, _, hmap, _, _⟩ := pi0BatchAux_ok envs obsL 0
      { loaded := true, device := dev, checkpointPath := cp
        sequenceCounter := 0, lastAction := none } rfl
    exact ⟨cs, st2, hrun, hmap⟩
  · intro env cp dev st obs
    rw [pi0Load_of_not_loaded _ cp dev (pi0Unload_not_loaded st)]
    exact ⟨_, _, pi0Predict_loaded env _ obs rfl, rfl⟩
  · intro env cp dev st obs h
    rw [openvlaLoad_of_not_loaded st cp dev h]
    exact ⟨_, _, openvlaPredict_loaded env _ obs rfl, rfl⟩
  · intro envs cp dev st obsL h
    rw [openvlaLoad_of_not_loaded st cp dev h]
    obtain ⟨cs, st2, hrun, _, _, _, hmap, _, _⟩ := openvlaBatchAux_ok envs obsL 0
      { loaded := true, device := dev, checkpointPath := cp
        sequenceCounter := 0, actionHistory := [] } rfl
    exact ⟨cs, st2, hrun, hmap⟩
  · intro env cp dev st obs
    rw [openvlaLoad_of_not_loaded _ cp dev (openvlaUnload_not_loaded st)]
    exact ⟨_, _, openvlaPredict_loaded env _ obs rfl, rfl⟩

/-- C2 witness: the sequencing statement applied to the initial pi0 state,
a concrete environment and a three-observation run. -/
theorem c2_witness :
    Pi0State.init.loaded = false ∧
    (∃ cs st2,
       pi0BatchAux (fun _ => zeroPi0Env) 0 (pi0Load Pi0State.init none "cpu")
           [obsDemo, obsDemo, obsDemo] = .ok (cs, st2) ∧
       cs.map ActionChunk.sequenceNumber = List.range' 1 3) :=
  ⟨rfl, c2_sequencing.2.1 (fun _ => zeroPi0Env) none "cpu" Pi0State.init
    [obsDemo, obsDemo, obsDemo] rfl⟩

/-! ## Claim C3 -/

/-- C3: for the loaded pi0 backend, `predict` returns a chunk of exactly 16
actions, every joint command lies in [-1, 1], every gripper command lies in
[0, 1], and corresponding joint values of consecutive actions differ by
strictly less than 0.2 in magnitude. (`|sin| ≤ 1` is the only fact assumed
about the sine abstraction.) -/
theorem c3_smooth_chunk (env : Pi0Env) (hs : ∀ x, |env.sinFn x| ≤ 1)
    (st : Pi0State) (h : st.loaded = true) (obs : Observation) :
    ∃ c st2, pi0Predict env st obs = .ok (c, st2) ∧
      c.actions.length = 16 ∧
      (∀ a ∈ c.actions, (∀ x ∈ a.jointCommands, -1 ≤ x ∧ x ≤ 1) ∧
        0 ≤ a.gripperCommand ∧ a.gripperCommand ≤ 1) ∧
      List.Chain' (fun a1 a2 =>
        List.Forall₂ (fun x y => |y - x| < 0.2) a1.jointCommands a2.jointCommands)
        c.actions := by
  refine ⟨_, _, pi0Predict_loaded env st obs h,
    generateSmoothActions_length _ _ _ _, generateSmoothActions_bounds _ _ _ _, ?_⟩
  show List.Chain' _ (generateSmoothActions env.sinFn st.sequenceCounter obs st.lastAction).1
  rw [generateSmoothActions_eq]
  exact pi0Steps_chain env.sinFn hs _ _ 16 0 _

/-- C3 witness: the smooth-chunk statement applied to a freshly loaded pi0
state, the zero-noise environment (whose sine abstraction is bounded by 1),
and a concrete observation. -/
theorem c3_witness :
    (∀ x, |zeroPi0Env.sinFn x| ≤ 1) ∧
    pi0LoadedDemo.loaded = true ∧
    (∃ c st2, pi0Predict zeroPi0Env pi0LoadedDemo obsDemo = .ok (c, st2) ∧
      c.actions.length = 16 ∧
      (∀ a ∈ c.actions, (∀ x ∈ a.jointCommands, -1 ≤ x ∧ x ≤ 1) ∧
        0 ≤ a.gripperCommand ∧ a.gripperCommand ≤ 1) ∧
      List.Chain' (fun a1 a2 =>
        List.Forall₂ (fun x y => |y - x| < 0.2) a1.jointCommands a2.jointCommands)
        c.actions) :=
  ⟨fun x => by simp [zeroPi0Env], rfl,
   c3_smooth_chunk zeroPi0Env (fun x => by simp [zeroPi0Env]) pi0LoadedDemo rfl obsDemo⟩

/-! ## Claim C5 -/

/-- C5: for the loaded pi0 and openvla backends, `predict_batch` on any list
of K observations succeeds with exactly K chunks; the i-th chunk is the
result of a `predict` call on the i-th observation (`Forall₂` alignment);
the sequence-counter side effects are applied in input order (the chunks
carry sequence numbers counter+1, ..., counter+K); and each chunk satisfies
the per-item `predict` constraints (chunk length and value bounds). -/
theorem c5_predict_batch :
    (∀ envs st obsL, st.loaded = true →
       ∃ cs st2, pi0PredictBatch envs st obsL = .ok (cs, st2) ∧
         cs.length = obsL.length ∧
         cs.map ActionChunk.sequenceNumber =
           List.range' (st.sequenceCounter + 1) obsL.length ∧
         List.Forall₂ (fun o c => ∃ e st0 st1, st0.loaded = true ∧
           pi0Predict e st0 o = .ok (c, st1)) obsL cs ∧
         ∀ c ∈ cs, c.actions.length = 16 ∧
           ∀ a ∈ c.actions, (∀ x ∈ a.jointCommands, -1 ≤ x ∧ x ≤ 1) ∧
             0 ≤ a.gripperCommand ∧ a.gripperCommand ≤ 1) ∧
    (∀ envs st obsL, st.loaded = true →
       ∃ cs st2, openvlaPredictBatch envs st obsL = .ok (cs, st2) ∧
         cs.length = obsL.length ∧
         cs.map ActionChunk.sequenceNumber =
           List.range' (st.sequenceCounter + 1) obsL.length ∧
         List.Forall₂ (fun o c => ∃ e st0 st1, st0.loaded = true ∧
           openvlaPredict e st0 o = .ok (c, st1)) obsL cs ∧
         ∀ c ∈ cs, c.actions.length = 8 ∧
           ∀ a ∈ c.actions, (∀ x ∈ a.jointCommands, -1 ≤ x ∧ x ≤ 1) ∧
             0 ≤ a.gripperCommand ∧ a.gripperCommand ≤ 1) := by
  constructor
  · intro envs st obsL h
    obtain ⟨cs, st2, hrun, hlen, _, _, hmap, hfa, hbounds⟩ := pi0BatchAux_ok envs obsL 0 st h
    refine ⟨cs, st2, ?_, hlen, hmap, hfa, hbounds⟩
    rw [pi0PredictBatch, if_pos (by simp [h]), hrun]
  · intro envs st obsL h
    obtain ⟨cs, st2, hrun, hlen, _, _, hmap, hfa, hbounds⟩ := openvlaBatchAux_ok envs obsL 0 st h
    refine ⟨cs, st2, ?_, hlen, hmap, hfa, hbounds⟩
    rw [openvlaPredictBatch, if_pos (by simp [h]), hrun]

/-- C5 witness: the batch law applied to the loaded openvla backend and a
concrete two-observation batch. -/
theorem c5_witness :
    ovLoadedDemo.loaded = true ∧
    (∃ cs st2,
       openvlaPredictBatch (fun _ => zeroOpenVLAEnv) ovLoadedDemo [obsDemo, obsDemo] =
         .ok (cs, st2) ∧
       cs.length = 2 ∧
       cs.map ActionChunk.sequenceNumber = List.range' 1 2 ∧
       List.Forall₂ (fun o c => ∃ e st0 st1, st0.loaded = true ∧
         openvlaPredict e st0 o = .ok (c, st1)) [obsDemo, obsDemo] cs ∧
       ∀ c ∈ cs, c.actions.length = 8 ∧
         ∀ a ∈ c.actions, (∀ x ∈ a.jointCommands, -1 ≤ x ∧ x ≤ 1) ∧
           0 ≤ a.gripperCommand ∧ a.gripperCommand ≤ 1) :=
  ⟨rfl, c5_predict_batch.2 (fun _ => zeroOpenVLAEnv) ovLoadedDemo [obsDemo, obsDemo] rfl⟩

/-! ## Claim C8 -/

/-- Modelled from the claim's words (not from the source): a gripper value
that "exponentially approaches" the binary target at blend rate 0.15 per
step, starting from `g0`, noise-free: after `i + 1` blend steps. -/
def specGripperExpApproach (g0 gt : ℚ) : ℕ → ℚ
  | 0 => g0 + 0.15 * (gt - g0)
  | n + 1 => specGripperExpApproach g0 gt n +
      0.15 * (gt - specGripperExpApproach g0 gt n)

/-- C8 counterexample: with empty history, a "pick" instruction and all
noise at zero, the code produces the same gripper value 23/40 at every one
of the 8 steps of the chunk — the gripper does not move towards the target
within the chunk. The claimed per-step exponential approach would give
23/40 at step 0 but 511/800 at step 1, and 23/40 ≠ 511/800. -/
theorem c8_counterexample :
    ((generateOpenvlaActions zeroOpenVLAEnv obsDemo []).1.map Action.gripperCommand) =
      [23/40, 23/40, 23/40, 23/40, 23/40, 23/40, 23/40, 23/40] ∧
    specGripperExpApproach (1/2) 1 0 = 23/40 ∧
    specGripperExpApproach (1/2) 1 1 = 511/800 ∧
    (23 : ℚ)/40 ≠ 511/800 := by
  have hpick : strContains (strLower obsDemo.languageInstruction) "pick" = true := by decide
  have hgt : gripperTargetOf obsDemo.languageInstruction = 1 := by
    simp [gripperTargetOf, hpick]
  have hr : List.range' 0 8 = [0, 1, 2, 3, 4, 5, 6, 7] := by decide
  refine ⟨?_, ?_, ?_, by norm_num⟩
  · rw [generateOpenvlaActions_eq, openvlaSteps_grippers, hr, hgt]
    norm_num [gripVal, clamp, ratMax, ratMin, gripperCurrentOf, zeroOpenVLAEnv]
  · norm_num [specGripperExpApproach]
  · norm_num [specGripperExpApproach]

/-- C8 (amended): for the loaded openvla backend, every action of the
predicted chunk carries a gripper value obtained by a SINGLE 0.15 blend
step from the per-call-constant base `gc` towards the binary target `gt`
(1 if the lower-cased instruction contains "pick", else 0), plus that
step's noise, clamped to [0, 1]. The base `gc` is the stored value at
index 6 of the newest history entry (0.5 when the history is empty); the
gripper does not iterate the blend within the chunk. -/
theorem c8_gripper_blend (env : OpenVLAEnv) (st : OpenVLAState) (obs : Observation)
    (h : st.loaded = true) :
    ∃ c st2, openvlaPredict env st obs = .ok (c, st2) ∧
      c.actions.map Action.gripperCommand =
        (List.range' 0 8).map (fun i =>
          clamp 0 1 (gripperCurrentOf st.actionHistory +
            0.15 * (gripperTargetOf obs.languageInstruction -
              gripperCurrentOf st.actionHistory) + env.gripNoise i)) := by
  refine ⟨_, _, openvlaPredict_loaded env st obs h, ?_⟩
  show (generateOpenvlaActions env obs st.actionHistory).1.map Action.gripperCommand = _
  rw [generateOpenvlaActions_eq, openvlaSteps_grippers]
  rfl

/-- C8 witness: the amended gripper law applied to the loaded openvla
backend, the zero-noise environment and a concrete observation. -/
theorem c8_witness :
    ovLoadedDemo.loaded = true ∧
    (∃ c st2, openvlaPredict zeroOpenVLAEnv ovLoadedDemo obsDemo = .ok (c, st2) ∧
      c.actions.map Action.gripperCommand =
        (List.range' 0 8).map (fun i =>
          clamp 0 1 (gripperCurrentOf ovLoadedDemo.actionHistory +
            0.15 * (gripperTargetOf obsDemo.languageInstruction -
              gripperCurrentOf ovLoadedDemo.actionHistory) +
            zeroOpenVLAEnv.gripNoise i))) :=
  ⟨rfl, c8_gripper_blend zeroOpenVLAEnv ovLoadedDemo obsDemo rfl⟩

/-! ## Claim C9 -/

/-- C9: at every step of the openvla generator, each joint moves towards its
per-call target by a bounded step — the pre-noise position stays between the
current position and the target (never overshooting), moves by at most 0.07
(= 0.05 + 0.02), and moves by at least 0.03 when the target is further than
0.07 away — then uniform noise bounded by 0.01 is added and the result is
clamped to [-1, 1] (so the final value is within 0.01 of the pre-noise
position and inside [-1, 1]). `stepToward` is exactly the per-joint,
per-step computation used by `zipStepJoints` inside `openvlaSteps`. -/
theorem c9_step_toward (sN pN curr tgt : ℚ)
    (hsN : |sN| ≤ 0.02) (hpN : |pN| ≤ 0.01)
    (hc1 : -1 ≤ curr) (hc2 : curr ≤ 1) (ht1 : -1 ≤ tgt) (ht2 : tgt ≤ 1) :
    (min curr tgt ≤ stepTowardRaw sN curr tgt ∧
      stepTowardRaw sN curr tgt ≤ max curr tgt) ∧
    |stepTowardRaw sN curr tgt - curr| ≤ 0.07 ∧
    (0.07 < |tgt - curr| → 0.03 ≤ |stepTowardRaw sN curr tgt - curr|) ∧
    stepToward sN pN curr tgt = clamp (-1) 1 (stepTowardRaw sN curr tgt + pN) ∧
    |stepToward sN pN curr tgt - stepTowardRaw sN curr tgt| ≤ 0.01 ∧
    -1 ≤ stepToward sN pN curr tgt ∧ stepToward sN pN curr tgt ≤ 1 := by
  obtain ⟨hs1, hs2⟩ := abs_le.mp hsN
  obtain ⟨hp1, hp2⟩ := abs_le.mp hpN
  have hraw : (min curr tgt ≤ stepTowardRaw sN curr tgt ∧
      stepTowardRaw sN curr tgt ≤ max curr tgt) ∧
      |stepTowardRaw sN curr tgt - curr| ≤ 0.07 ∧
      (0.07 < |tgt - curr| → 0.03 ≤ |stepTowardRaw sN curr tgt - curr|) := by
    simp only [stepTowardRaw]
    split_ifs with hlt
    · rw [ratMin_eq]
      have hmin1 : min tgt (curr + (0.05 + sN)) ≤ tgt := min_le_left _ _
      have hmin2 : min tgt (curr + (0.05 + sN)) ≤ curr + (0.05 + sN) := min_le_right _ _
      have hminge : curr ≤ min tgt (curr + (0.05 + sN)) :=
        le_min hlt.le (by linarith)
      refine ⟨⟨le_trans (min_le_left curr tgt) hminge, le_trans hmin1 (le_max_right _ _)⟩,
        abs_le.mpr ⟨by linarith, by linarith⟩, ?_⟩
      intro hd
      rw [abs_of_pos (by linarith : (0:ℚ) < tgt - curr)] at hd
      rw [min_eq_right (by linarith : curr + (0.05 + sN) ≤ tgt)]
      have he : curr + (0.05 + sN) - curr = 0.05 + sN := by ring
      rw [he, abs_of_pos (by linarith : (0:ℚ) < 0.05 + sN)]
      linarith
    · rw [ratMax_eq]
      have hge : tgt ≤ curr := not_lt.mp hlt
      have hmax1 : tgt ≤ max tgt (curr - (0.05 + sN)) := le_max_left _ _
      have hmax2 : curr - (0.05 + sN) ≤ max tgt (curr - (0.05 + sN)) := le_max_right _ _
      have hmaxle : max tgt (curr - (0.05 + sN)) ≤ curr := max_le hge (by linarith)
      refine ⟨⟨le_trans (min_le_right curr tgt) hmax1, le_trans hmaxle (le_max_left _ _)⟩,
        abs_le.mpr ⟨by linarith, by linarith⟩, ?_⟩
      intro hd
      rw [abs_sub_comm, abs_of_nonneg (by linarith : (0:ℚ) ≤ curr - tgt)] at hd
      rw [max_eq_right (by linarith : tgt ≤ curr - (0.05 + sN))]
      have he : curr - (0.05 + sN) - curr = -(0.05 + sN) := by ring
      rw [he, abs_neg, abs_of_pos (by linarith : (0:ℚ) < 0.05 + sN)]
      linarith
  have hrawlo : -1 ≤ stepTowardRaw sN curr tgt := le_trans (le_min hc1 ht1) hraw.1.1
  have hrawhi : stepTowardRaw sN curr tgt ≤ 1 := le_trans hraw.1.2 (max_le hc2 ht2)
  have hclamp := abs_clamp_sub_le (-1) 1 (stepTowardRaw sN curr tgt) pN hrawlo hrawhi
  refine ⟨hraw.1, hraw.2.1, hraw.2.2, rfl, le_trans hclamp hpN, ?_, ?_⟩
  · rw [stepToward]; exact lo_le_clamp _ _ _
  · rw [stepToward]; exact clamp_le_hi _ _ _ (by norm_num)

/-- C9 witness: the per-step law applied at concrete values (zero noise,
current position 0, target 1/2). -/
theorem c9_witness :
    |(0 : ℚ)| ≤ 0.02 ∧ |(0 : ℚ)| ≤ 0.01 ∧
    ((min (0 : ℚ) (1/2) ≤ stepTowardRaw 0 0 (1/2) ∧
       stepTowardRaw 0 0 (1/2) ≤ max (0 : ℚ) (1/2)) ∧
     |stepTowardRaw 0 0 (1/2) - 0| ≤ 0.07 ∧
     (0.07 < |(1/2 : ℚ) - 0| → 0.03 ≤ |stepTowardRaw 0 0 (1/2) - 0|) ∧
     stepToward 0 0 0 (1/2) = clamp (-1) 1 (stepTowardRaw 0 0 (1/2) + 0) ∧
     |stepToward 0 0 0 (1/2) - stepTowardRaw 0 0 (1/2)| ≤ 0.01 ∧
     -1 ≤ stepToward 0 0 0 (1/2) ∧ stepToward 0 0 0 (1/2) ≤ 1) :=
  ⟨by norm_num, by norm_num,
   c9_step_toward 0 0 0 (1/2) (by norm_num) (by norm_num)
     (by norm_num) (by norm_num) (by norm_num) (by norm_num)⟩

/-! ## Claim C10 -/

/-- Extracts the post-state of a successful `openvlaPredict` call. -/
def stateAfterPredict (env : OpenVLAEnv) (st : OpenVLAState) (obs : Observation) :
    OpenVLAState :=
  match openvlaPredict env st obs with
  | .ok r => r.2
  | .error _ => st

/-- C10 counterexample: the claim says every stored history entry has
exactly 7 elements. After two `predict` calls from a fresh load, the two
stored entries have lengths 7 and 8: the second entry keeps the copied
7-element predecessor (6 joints + its gripper) and appends a further
gripper value, so it has 8 elements, and 8 ≠ 7. -/
theorem c10_counterexample :
    ((stateAfterPredict zeroOpenVLAEnv
        (stateAfterPredict zeroOpenVLAEnv ovLoadedDemo obsDemo)
        obsDemo).actionHistory.map List.length) = [7, 8] ∧
    (8 : ℕ) ≠ 7 := by
  exact ⟨by decide, by decide⟩

/-- C10 (amended): the history invariant the openvla backend actually
maintains — every stored entry has AT LEAST 7 elements (6 joint values
followed by one or more gripper values; the n-th entry since load has 6+n),
and the history holds at most 10 entries. `load` from unloaded empties the
history, a successful `predict` preserves the invariant and leaves the
history nonempty, and under the invariant the index-6 lookup on the newest
entry always finds a stored value, the 0.5 default being used only while
the history is empty. -/
theorem c10_history_invariant :
    histInv OpenVLAState.init.actionHistory ∧
    (∀ st cp dev, st.loaded = false → (openvlaLoad st cp dev).actionHistory = []) ∧
    (∀ env st obs c st2, st.loaded = true → histInv st.actionHistory →
       openvlaPredict env st obs = .ok (c, st2) →
       histInv st2.actionHistory ∧ st2.actionHistory ≠ []) ∧
    (∀ h, histInv h → h ≠ [] →
       ∃ l, h.getLast? = some l ∧ 6 < l.length ∧ gripperCurrentOf h = l.getD 6 0) ∧
    gripperCurrentOf [] = 0.5 := by
  refine ⟨⟨?_, ?_⟩, ?_, ?_, gripperCurrentOf_of_inv, rfl⟩
  · intro e he
    simp [OpenVLAState.init] at he
  · norm_num [OpenVLAState.init]
  · intro st cp dev h
    rw [openvlaLoad_of_not_loaded st cp dev h]
  · intro env st obs c st2 h hinv hpred
    rw [openvlaPredict_loaded env st obs h] at hpred
    simp only [Except.ok.injEq, Prod.mk.injEq] at hpred
    obtain ⟨hc, hst⟩ := hpred
    subst hst
    exact generateOpenvlaActions_hist env obs st.actionHistory hinv

/-- C10 witness: the amended invariant applied after one concrete predict
from a fresh load. -/
theorem c10_witness :
    ovLoadedDemo.loaded = true ∧
    histInv ovLoadedDemo.actionHistory ∧
    (histInv (generateOpenvlaActions zeroOpenVLAEnv obsDemo ovLoadedDemo.actionHistory).2 ∧
      (generateOpenvlaActions zeroOpenVLAEnv obsDemo ovLoadedDemo.actionHistory).2 ≠ []) := by
  have h1 : ovLoadedDemo.loaded = true := rfl
  have h2 : histInv ovLoadedDemo.actionHistory :=
    ⟨by intro e he; simp [ovLoadedDemo, openvlaLoad, OpenVLAState.init] at he,
     by norm_num [ovLoadedDemo, openvlaLoad, OpenVLAState.init]⟩
  have h3 := openvlaPredict_loaded zeroOpenVLAEnv ovLoadedDemo obsDemo h1
  have h4 := c10_history_invariant.2.2.1 zeroOpenVLAEnv ovLoadedDemo obsDemo _ _ h1 h2 h3
  exact ⟨h1, h2, h4⟩

end VLA
